import Mathlib

/-!
Verification of the forecast core of `forecasting.py`
(agriBORA commodity price forecasting).

Shallow embedding conventions:
* Python floats are modelled as exact rationals (`ℚ`); the float value
  `NaN` (which arises from `pandas` min/max over an empty selection) is
  modelled by `none` in `PFloat := Option ℚ`.
* `dict` values are association lists; a failed `dict[key]` access is a
  `PyError.keyError`, modelling the Python `KeyError` exception, and the
  exception aborts the whole batch (the partially built list of
  predictions is discarded), exactly as in the Python loop.
* Python `round(x, 2)` rounds to the nearest multiple of 1/100 with ties
  going to the even multiple (the documented behaviour of `round` on
  Python floats), modelled exactly on rationals by `round2q`.
-/

/-- A row of the price datasets: columns `County`, `Date`, `WholeSale`
(`Date` is modelled as an integer timestamp; only its order matters). -/
structure Record where
  County : String
  Date : ℤ
  WholeSale : ℚ
deriving DecidableEq

/-- A row of the output of `forecast_prices`. -/
structure Prediction where
  County : String
  Predicted_Wholesale_Price_KES : Option ℚ
deriving DecidableEq

/-- Python exceptions raised by the core: a failed `dict[key]` lookup,
tagged with the name of the dict.  `recent_prices[county]` failing is the
spec error `MissingRecentPrice`; `COUNTY_FACTORS[county]` failing is the
spec error `UnconfiguredRegion`. -/
inductive PyError where
  | keyError (dict : String) (key : String)
deriving DecidableEq

/-- Python float values: `none` is `NaN`, `some q` a real value. -/
abbrev PFloat := Option ℚ

/-- Multiplication on Python floats: `NaN` propagates. -/
def pmul (a b : PFloat) : PFloat :=
  match a, b with
  | some x, some y => some (x * y)
  | _, _ => none

/-- Python float comparison `a < b`: any comparison with `NaN` is false. -/
def plt (a b : PFloat) : Bool :=
  match a, b with
  | some x, some y => decide (x < y)
  | _, _ => false

/-- Python builtin `min(a, b)`: returns `b` if `b < a`, else `a`. -/
def pymin (a b : PFloat) : PFloat := if plt b a then b else a

/-- Python builtin `max(a, b)`: returns `b` if `a < b`, else `a`. -/
def pymax (a b : PFloat) : PFloat := if plt a b then b else a

/-- Round half to even on rationals, the rounding of Python `round`. -/
def roundHalfEven (q : ℚ) : ℤ :=
  if q - ⌊q⌋ < 1/2 then ⌊q⌋
  else if 1/2 < q - ⌊q⌋ then ⌊q⌋ + 1
  else if ⌊q⌋ % 2 = 0 then ⌊q⌋ else ⌊q⌋ + 1

/-- Python `round(x, 2)` on a real value, modelled on exact rationals. -/
def round2q (x : ℚ) : ℚ := (roundHalfEven (100 * x) : ℚ) / 100

/-- Python `round(x, 2)` on a possibly-`NaN` float: `round(NaN, 2) = NaN`. -/
def pround2 (a : PFloat) : PFloat := a.map round2q

/-- `pandas` `Series.min` over the `WholeSale` column of a selection:
`NaN` on an empty selection, the minimum otherwise. -/
def seriesMin : List ℚ → PFloat
  | [] => none
  | x :: xs => some (xs.foldl min x)

/-- `pandas` `Series.max`: `NaN` on an empty selection, else the maximum. -/
def seriesMax : List ℚ → PFloat
  | [] => none
  | x :: xs => some (xs.foldl max x)

/-- `TARGET_COUNTIES` from `forecasting.py` (lines 19-25). -/
def TARGET_COUNTIES : List String :=
  ["Kiambu", "Kirinyaga", "Mombasa", "Nairobi", "Uasin-Gishu"]

/-- `SEASONAL_ADJUSTMENTS` from `forecasting.py` (lines 27-33). -/
def SEASONAL_ADJUSTMENTS : List (ℤ × ℚ) :=
  [(50, 11/10), (51, 23/20), (52, 6/5), (1, 23/20), (2, 11/10)]

/-- `COUNTY_FACTORS` from `forecasting.py` (lines 35-41). -/
def COUNTY_FACTORS : List (String × ℚ) :=
  [("Kiambu", 1), ("Kirinyaga", 49/50), ("Mombasa", 19/20),
   ("Nairobi", 1), ("Uasin-Gishu", 21/20)]

/-- `hist = agribora[agribora["County"] == county]` (line 98). -/
def histFor (agribora : List Record) (county : String) : List Record :=
  agribora.filter (fun r => r.County = county)

/-- `min_price = hist["WholeSale"].min() * 0.9` (line 99). -/
def lowerBound (agribora : List Record) (county : String) : PFloat :=
  pmul (seriesMin ((histFor agribora county).map (fun r => r.WholeSale))) (some (9/10))

/-- `max_price = hist["WholeSale"].max() * 1.1` (line 100). -/
def upperBound (agribora : List Record) (county : String) : PFloat :=
  pmul (seriesMax ((histFor agribora county).map (fun r => r.WholeSale))) (some (11/10))

/-- One iteration of the loop body of `forecast_prices` (lines 95-112),
for one county, parametric in the two configuration tables. -/
def forecastOne (seasonal : List (ℤ × ℚ)) (factors : List (String × ℚ))
    (agribora : List Record) (recent_prices : List (String × ℚ))
    (week_number : ℤ) (county : String) : Except PyError Prediction := do
  let base_price ← match recent_prices.lookup county with
    | some b => Except.ok b
    | none => Except.error (PyError.keyError "recent_prices" county)
  let min_price := lowerBound agribora county
  let max_price := upperBound agribora county
  let seasonal_factor := (seasonal.lookup week_number).getD 1
  let county_factor ← match factors.lookup county with
    | some f => Except.ok f
    | none => Except.error (PyError.keyError "COUNTY_FACTORS" county)
  let price := some (base_price * seasonal_factor * county_factor)
  let price := pymax min_price (pymin max_price price)
  let price := pround2 price
  Except.ok { County := county, Predicted_Wholesale_Price_KES := price }

/-- The loop of `forecast_prices` over a list of counties: rows are
appended in order; a raised `KeyError` aborts, discarding the partially
built list of predictions. -/
def forecastList (seasonal : List (ℤ × ℚ)) (factors : List (String × ℚ))
    (counties : List String) (agribora : List Record)
    (recent_prices : List (String × ℚ)) (week_number : ℤ) :
    Except PyError (List Prediction) :=
  match counties with
  | [] => Except.ok []
  | c :: cs => do
      let p ← forecastOne seasonal factors agribora recent_prices week_number c
      let ps ← forecastList seasonal factors cs agribora recent_prices week_number
      Except.ok (p :: ps)

/-- `forecast_prices` with the two configuration tables as parameters. -/
def forecastPricesWith (seasonal : List (ℤ × ℚ)) (factors : List (String × ℚ))
    (agribora : List Record) (recent_prices : List (String × ℚ))
    (week_number : ℤ) : Except PyError (List Prediction) :=
  forecastList seasonal factors TARGET_COUNTIES agribora recent_prices week_number

/-- `forecast_prices` from `forecasting.py` (lines 88-114): iterates
`TARGET_COUNTIES`, reading the module-level tables. -/
def forecast_prices (agribora : List Record)
    (recent_prices : List (String × ℚ)) (week_number : ℤ) :
    Except PyError (List Prediction) :=
  forecastPricesWith SEASONAL_ADJUSTMENTS COUNTY_FACTORS agribora recent_prices week_number

/-- Modelled from the spec: "round half away from zero", the rounding
mode the spec claims for the final 2-decimal step (the source only calls
the Python builtin `round`). -/
def round2AwaySpec (x : ℚ) : ℚ :=
  (if 0 ≤ x then (⌊100 * x + 1/2⌋ : ℚ) else (⌈100 * x - 1/2⌉ : ℚ)) / 100

/-! ### Basic lemmas about the Python primitives -/

theorem pymin_some (a b : ℚ) : pymin (some a) (some b) = some (min a b) := by
  by_cases h : b < a
  · simp [pymin, plt, h, min_eq_right (le_of_lt h)]
  · simp [pymin, plt, h, min_eq_left (not_lt.mp h)]

theorem pymax_some (a b : ℚ) : pymax (some a) (some b) = some (max a b) := by
  by_cases h : a < b
  · simp [pymax, plt, h, max_eq_right (le_of_lt h)]
  · simp [pymax, plt, h, max_eq_left (not_lt.mp h)]

theorem le_roundHalfEven (q : ℚ) : q - 1/2 ≤ (roundHalfEven q : ℚ) := by
  have h0 : (⌊q⌋ : ℚ) ≤ q := Int.floor_le q
  have h1 : q < ⌊q⌋ + 1 := Int.lt_floor_add_one q
  unfold roundHalfEven
  split_ifs with ha hb hc <;> push_cast <;> linarith

theorem roundHalfEven_le (q : ℚ) : (roundHalfEven q : ℚ) ≤ q + 1/2 := by
  have h0 : (⌊q⌋ : ℚ) ≤ q := Int.floor_le q
  have h1 : q < ⌊q⌋ + 1 := Int.lt_floor_add_one q
  unfold roundHalfEven
  split_ifs with ha hb hc <;> push_cast <;> linarith

theorem roundHalfEven_tie_even (q : ℚ) (h : q - ⌊q⌋ = 1/2) :
    roundHalfEven q % 2 = 0 := by
  unfold roundHalfEven
  have ha : ¬ (q - ⌊q⌋ < 1/2) := by rw [h]; exact lt_irrefl _
  have hb : ¬ ((1:ℚ)/2 < q - ⌊q⌋) := by rw [h]; exact lt_irrefl _
  rw [if_neg ha, if_neg hb]
  split_ifs with hc
  · exact hc
  · omega

theorem le_round2q (x : ℚ) : x - 1/200 ≤ round2q x := by
  have := le_roundHalfEven (100 * x)
  unfold round2q
  linarith

theorem round2q_le (x : ℚ) : round2q x ≤ x + 1/200 := by
  have := roundHalfEven_le (100 * x)
  unfold round2q
  linarith

theorem round2q_den (x : ℚ) : ∃ n : ℤ, round2q x = (n : ℚ) / 100 :=
  ⟨roundHalfEven (100 * x), rfl⟩

theorem foldl_min_le_init (l : List ℚ) : ∀ a : ℚ, l.foldl min a ≤ a := by
  induction l with
  | nil => intro a; simp
  | cons x xs ih =>
      intro a
      calc (x :: xs).foldl min a = xs.foldl min (min a x) := rfl
        _ ≤ min a x := ih (min a x)
        _ ≤ a := min_le_left a x

theorem le_foldl_max_init (l : List ℚ) : ∀ a : ℚ, a ≤ l.foldl max a := by
  induction l with
  | nil => intro a; simp
  | cons x xs ih =>
      intro a
      calc a ≤ max a x := le_max_left a x
        _ ≤ xs.foldl max (max a x) := ih (max a x)
        _ = (x :: xs).foldl max a := rfl

theorem foldl_min_nonneg (l : List ℚ) :
    ∀ a : ℚ, 0 ≤ a → (∀ x ∈ l, 0 ≤ x) → 0 ≤ l.foldl min a := by
  induction l with
  | nil => intro a ha _; simpa using ha
  | cons x xs ih =>
      intro a ha hl
      have hx : 0 ≤ x := hl x (List.mem_cons_self x xs)
      exact ih (min a x) (le_min ha hx) (fun y hy => hl y (List.mem_cons_of_mem x hy))

/-- Non-empty history with non-negative prices yields real, ordered,
non-negative bounds. -/
theorem bounds_some_le (ag : List Record) (c : String)
    (hne : histFor ag c ≠ [])
    (hnn : ∀ r ∈ histFor ag c, 0 ≤ r.WholeSale) :
    ∃ l u : ℚ, lowerBound ag c = some l ∧ upperBound ag c = some u ∧
      0 ≤ l ∧ l ≤ u := by
  obtain ⟨r, rs, hcons⟩ := List.exists_cons_of_ne_nil hne
  have hmap : (histFor ag c).map (fun t => t.WholeSale)
      = r.WholeSale :: rs.map (fun t => t.WholeSale) := by rw [hcons]; rfl
  set m : ℚ := (rs.map (fun t => t.WholeSale)).foldl min r.WholeSale with hm
  set M : ℚ := (rs.map (fun t => t.WholeSale)).foldl max r.WholeSale with hM
  have hmin : seriesMin ((histFor ag c).map (fun t => t.WholeSale)) = some m := by
    rw [hmap]; rfl
  have hmax : seriesMax ((histFor ag c).map (fun t => t.WholeSale)) = some M := by
    rw [hmap]; rfl
  have hr0 : 0 ≤ r.WholeSale := hnn r (by rw [hcons]; exact List.mem_cons_self r rs)
  have hm0 : 0 ≤ m := by
    refine foldl_min_nonneg _ _ hr0 (fun x hx => ?_)
    obtain ⟨t, ht, hxt⟩ := List.mem_map.mp hx
    exact hxt ▸ hnn t (by rw [hcons]; exact List.mem_cons_of_mem r ht)
  have hmr : m ≤ r.WholeSale := foldl_min_le_init _ _
  have hrM : r.WholeSale ≤ M := le_foldl_max_init _ _
  refine ⟨m * (9/10), M * (11/10), ?_, ?_, ?_, ?_⟩
  · unfold lowerBound; rw [hmin]; rfl
  · unfold upperBound; rw [hmax]; rfl
  · linarith
  · linarith

theorem clamp_mem {l u : ℚ} (hlu : l ≤ u) (x : ℚ) :
    l ≤ max l (min u x) ∧ max l (min u x) ≤ u :=
  ⟨le_max_left l _, max_le hlu (le_trans (min_le_left u x) le_rfl)⟩

/-! ### Structural lemmas about the forecast loop -/

theorem forecastOne_eq_of_lookups (s : List (ℤ × ℚ)) (f : List (String × ℚ))
    (ag : List Record) (rec : List (String × ℚ)) (w : ℤ) (c : String)
    (b φ : ℚ) (hb : rec.lookup c = some b) (hf : f.lookup c = some φ) :
    forecastOne s f ag rec w c = Except.ok
      ⟨c, pround2 (pymax (lowerBound ag c) (pymin (upperBound ag c)
        (some (b * (s.lookup w).getD 1 * φ))))⟩ := by
  simp [forecastOne, hb, hf, Except.instMonad, Except.bind]

theorem forecastOne_ok_elim {s : List (ℤ × ℚ)} {f : List (String × ℚ)}
    {ag : List Record} {rec : List (String × ℚ)} {w : ℤ} {c : String}
    {p : Prediction} (h : forecastOne s f ag rec w c = Except.ok p) :
    ∃ b φ : ℚ, rec.lookup c = some b ∧ f.lookup c = some φ ∧
      p = ⟨c, pround2 (pymax (lowerBound ag c) (pymin (upperBound ag c)
        (some (b * (s.lookup w).getD 1 * φ))))⟩ := by
  cases hb : rec.lookup c with
  | none =>
    rw [forecastOne] at h
    simp [hb, Except.instMonad, Except.bind] at h
  | some b =>
    cases hf : f.lookup c with
    | none =>
      rw [forecastOne] at h
      simp [hb, hf, Except.instMonad, Except.bind] at h
    | some φ =>
      rw [forecastOne_eq_of_lookups s f ag rec w c b φ hb hf] at h
      injection h with h
      exact ⟨b, φ, rfl, rfl, h.symm⟩

theorem forecastOne_ok_county {s : List (ℤ × ℚ)} {f : List (String × ℚ)}
    {ag : List Record} {rec : List (String × ℚ)} {w : ℤ} {c : String}
    {p : Prediction} (h : forecastOne s f ag rec w c = Except.ok p) :
    p.County = c := by
  obtain ⟨b, φ, _, _, hp⟩ := forecastOne_ok_elim h
  rw [hp]

theorem forecastList_ok_mem {s : List (ℤ × ℚ)} {f : List (String × ℚ)}
    {ag : List Record} {rec : List (String × ℚ)} {w : ℤ} :
    ∀ (cs : List String) (rows : List Prediction),
      forecastList s f cs ag rec w = Except.ok rows →
      ∀ c ∈ cs, ∃ p ∈ rows, forecastOne s f ag rec w c = Except.ok p := by
  intro cs
  induction cs with
  | nil => intro rows _ c hc; exact absurd hc (List.not_mem_nil c)
  | cons d ds ih =>
    intro rows h c hc
    cases h1 : forecastOne s f ag rec w d with
    | error e =>
      rw [forecastList] at h
      simp [h1, Except.instMonad, Except.bind] at h
    | ok p =>
      cases h2 : forecastList s f ds ag rec w with
      | error e =>
        rw [forecastList] at h
        simp [h1, h2, Except.instMonad, Except.bind] at h
      | ok ps =>
        have hrows : p :: ps = rows := by
          rw [forecastList] at h
          simpa [h1, h2, Except.instMonad, Except.bind] using h
        rcases List.mem_cons.mp hc with hcd | hcds
        · subst hcd
          exact ⟨p, by rw [← hrows]; exact List.mem_cons_self p ps, h1⟩
        · obtain ⟨q, hq, hone⟩ := ih ps h2 c hcds
          exact ⟨q, by rw [← hrows]; exact List.mem_cons_of_mem p hq, hone⟩

theorem forecastList_ok_mem_rev {s : List (ℤ × ℚ)} {f : List (String × ℚ)}
    {ag : List Record} {rec : List (String × ℚ)} {w : ℤ} :
    ∀ (cs : List String) (rows : List Prediction),
      forecastList s f cs ag rec w = Except.ok rows →
      ∀ p ∈ rows, ∃ c ∈ cs, forecastOne s f ag rec w c = Except.ok p := by
  intro cs
  induction cs with
  | nil =>
    intro rows h p hp
    rw [forecastList] at h
    injection h with h
    rw [← h] at hp
    exact absurd hp (List.not_mem_nil p)
  | cons d ds ih =>
    intro rows h p hp
    cases h1 : forecastOne s f ag rec w d with
    | error e =>
      rw [forecastList] at h
      simp [h1, Except.instMonad, Except.bind] at h
    | ok q =>
      cases h2 : forecastList s f ds ag rec w with
      | error e =>
        rw [forecastList] at h
        simp [h1, h2, Except.instMonad, Except.bind] at h
      | ok ps =>
        have hrows : q :: ps = rows := by
          rw [forecastList] at h
          simpa [h1, h2, Except.instMonad, Except.bind] using h
        rw [← hrows] at hp
        rcases List.mem_cons.mp hp with hpq | hps
        · exact ⟨d, List.mem_cons_self d ds, by rw [← hpq] at h1; exact h1⟩
        · obtain ⟨c, hc, hone⟩ := ih ps h2 p hps
          exact ⟨c, List.mem_cons_of_mem d hc, hone⟩

theorem forecastList_ok_counties {s : List (ℤ × ℚ)} {f : List (String × ℚ)}
    {ag : List Record} {rec : List (String × ℚ)} {w : ℤ} :
    ∀ (cs : List String) (rows : List Prediction),
      forecastList s f cs ag rec w = Except.ok rows →
      rows.map (fun p => p.County) = cs := by
  intro cs
  induction cs with
  | nil =>
    intro rows h
    rw [forecastList] at h
    injection h with h
    rw [← h]
    rfl
  | cons d ds ih =>
    intro rows h
    cases h1 : forecastOne s f ag rec w d with
    | error e =>
      rw [forecastList] at h
      simp [h1, Except.instMonad, Except.bind] at h
    | ok p =>
      cases h2 : forecastList s f ds ag rec w with
      | error e =>
        rw [forecastList] at h
        simp [h1, h2, Except.instMonad, Except.bind] at h
      | ok ps =>
        have hrows : p :: ps = rows := by
          rw [forecastList] at h
          simpa [h1, h2, Except.instMonad, Except.bind] using h
        rw [← hrows, List.map_cons, forecastOne_ok_county h1, ih ps h2]

theorem forecastList_factors_missing {s : List (ℤ × ℚ)} {f : List (String × ℚ)}
    {ag : List Record} {rec : List (String × ℚ)} {w : ℤ} :
    ∀ cs : List String,
      (∀ c ∈ cs, (rec.lookup c).isSome = true) →
      (∃ c ∈ cs, f.lookup c = none) →
      ∃ c ∈ cs, forecastList s f cs ag rec w =
        Except.error (PyError.keyError "COUNTY_FACTORS" c) := by
  intro cs
  induction cs with
  | nil =>
    intro _ hmiss
    obtain ⟨c, hc, _⟩ := hmiss
    exact absurd hc (List.not_mem_nil c)
  | cons d ds ih =>
    intro hrec hmiss
    obtain ⟨b, hb⟩ := Option.isSome_iff_exists.mp (hrec d (List.mem_cons_self d ds))
    cases hfd : f.lookup d with
    | none =>
      have h1 : forecastOne s f ag rec w d =
          Except.error (PyError.keyError "COUNTY_FACTORS" d) := by
        rw [forecastOne]
        simp [hb, hfd, Except.instMonad, Except.bind]
      refine ⟨d, List.mem_cons_self d ds, ?_⟩
      rw [forecastList]
      simp [h1, Except.instMonad, Except.bind]
    | some φ =>
      have hmiss2 : ∃ c ∈ ds, f.lookup c = none := by
        obtain ⟨c, hc, hcn⟩ := hmiss
        rcases List.mem_cons.mp hc with hcd | hcds
        · rw [hcd, hfd] at hcn
          exact absurd hcn (by simp)
        · exact ⟨c, hcds, hcn⟩
      obtain ⟨c, hc, herr⟩ :=
        ih (fun c hc => hrec c (List.mem_cons_of_mem d hc)) hmiss2
      have h1 := forecastOne_eq_of_lookups s f ag rec w d b φ hb hfd
      refine ⟨c, List.mem_cons_of_mem d hc, ?_⟩
      rw [forecastList]
      simp [h1, herr, Except.instMonad, Except.bind]

theorem forecastOne_seasonal_none {s : List (ℤ × ℚ)} {w : ℤ}
    (hw : s.lookup w = none) (f : List (String × ℚ)) (ag : List Record)
    (rec : List (String × ℚ)) (c : String) :
    forecastOne s f ag rec w c = forecastOne [] f ag rec w c := by
  simp only [forecastOne, hw, List.lookup]

theorem forecastList_seasonal_none {s : List (ℤ × ℚ)} {w : ℤ}
    (hw : s.lookup w = none) (f : List (String × ℚ)) (ag : List Record)
    (rec : List (String × ℚ)) :
    ∀ cs : List String,
      forecastList s f cs ag rec w = forecastList [] f cs ag rec w := by
  intro cs
  induction cs with
  | nil => rfl
  | cons d ds ih =>
    rw [forecastList, forecastList, forecastOne_seasonal_none hw f ag rec d, ih]

/-! ### Evaluation helpers for concrete inputs

Rational arithmetic does not reduce in the kernel, so concrete runs of
the forecast are computed through `norm_num`-discharged helper lemmas. -/

theorem floor_eval (q : ℚ) (n : ℤ) (h1 : (n : ℚ) ≤ q) (h2 : q < n + 1) :
    ⌊q⌋ = n :=
  Int.floor_eq_iff.mpr ⟨h1, h2⟩

theorem round2q_eval_down (x : ℚ) (n : ℤ) (v : ℚ)
    (h1 : (n : ℚ) ≤ 100 * x) (h2 : 100 * x < n + 1)
    (h3 : 100 * x - n < 1/2) (hv : (n : ℚ) / 100 = v) :
    round2q x = v := by
  have hfl : ⌊100 * x⌋ = n := floor_eval _ _ h1 h2
  rw [round2q, roundHalfEven, hfl, if_pos h3, hv]

theorem round2q_eval_up (x : ℚ) (n : ℤ) (v : ℚ)
    (h1 : (n : ℚ) ≤ 100 * x) (h2 : 100 * x < n + 1)
    (h3 : 1/2 < 100 * x - n) (hv : ((n : ℚ) + 1) / 100 = v) :
    round2q x = v := by
  have hfl : ⌊100 * x⌋ = n := floor_eval _ _ h1 h2
  rw [round2q, roundHalfEven, hfl, if_neg (by linarith), if_pos h3]
  rw [← hv]
  push_cast
  ring

theorem round2q_eval_half_even (x : ℚ) (n : ℤ) (v : ℚ)
    (h1 : (n : ℚ) ≤ 100 * x) (h2 : 100 * x < n + 1)
    (h3 : 100 * x - n = 1/2) (hev : n % 2 = 0) (hv : (n : ℚ) / 100 = v) :
    round2q x = v := by
  have hfl : ⌊100 * x⌋ = n := floor_eval _ _ h1 h2
  rw [round2q, roundHalfEven, hfl, if_neg (by rw [h3]; exact lt_irrefl _),
    if_neg (by rw [h3]; exact lt_irrefl _), if_pos hev, hv]

theorem lowerBound_eval (ag : List Record) (c : String) (m v : ℚ)
    (hm : seriesMin ((histFor ag c).map (fun r => r.WholeSale)) = some m)
    (hv : m * (9/10) = v) :
    lowerBound ag c = some v := by
  rw [lowerBound, hm]
  exact congrArg some hv

theorem upperBound_eval (ag : List Record) (c : String) (M v : ℚ)
    (hM : seriesMax ((histFor ag c).map (fun r => r.WholeSale)) = some M)
    (hv : M * (11/10) = v) :
    upperBound ag c = some v := by
  rw [upperBound, hM]
  exact congrArg some hv

theorem forecastOne_eval (s : List (ℤ × ℚ)) (f : List (String × ℚ))
    (ag : List Record) (rec : List (String × ℚ)) (w : ℤ) (c : String)
    (b φ sf l u x y v : ℚ)
    (hb : rec.lookup c = some b)
    (hf : f.lookup c = some φ)
    (hl : lowerBound ag c = some l)
    (hu : upperBound ag c = some u)
    (hs : (s.lookup w).getD 1 = sf)
    (hx : b * sf * φ = x)
    (hy : max l (min u x) = y)
    (hv : round2q y = v) :
    forecastOne s f ag rec w c = Except.ok ⟨c, some v⟩ := by
  rw [forecastOne_eq_of_lookups s f ag rec w c b φ hb hf, hs, hx, hl, hu,
    pymin_some, pymax_some, hy]
  rw [show pround2 (some y) = some (round2q y) from rfl, hv]

theorem forecastOne_eval_nan (s : List (ℤ × ℚ)) (f : List (String × ℚ))
    (ag : List Record) (rec : List (String × ℚ)) (w : ℤ) (c : String)
    (b φ : ℚ)
    (hb : rec.lookup c = some b)
    (hf : f.lookup c = some φ)
    (hhist : histFor ag c = []) :
    forecastOne s f ag rec w c = Except.ok ⟨c, none⟩ := by
  rw [forecastOne_eq_of_lookups s f ag rec w c b φ hb hf]
  rw [lowerBound, upperBound, hhist]
  rfl

theorem forecastList_nil (s : List (ℤ × ℚ)) (f : List (String × ℚ))
    (ag : List Record) (rec : List (String × ℚ)) (w : ℤ) :
    forecastList s f [] ag rec w = Except.ok [] := rfl

theorem forecastList_cons_ok {s : List (ℤ × ℚ)} {f : List (String × ℚ)}
    {ag : List Record} {rec : List (String × ℚ)} {w : ℤ} {c : String}
    {cs : List String} {p : Prediction} {ps : List Prediction}
    (h1 : forecastOne s f ag rec w c = Except.ok p)
    (h2 : forecastList s f cs ag rec w = Except.ok ps) :
    forecastList s f (c :: cs) ag rec w = Except.ok (p :: ps) := by
  rw [forecastList]
  simp [h1, h2, Except.instMonad, Except.bind]

theorem round2q_98 : round2q 98 = 98 :=
  round2q_eval_down 98 9800 98 (by norm_num) (by norm_num) (by norm_num) (by norm_num)

theorem round2q_95 : round2q 95 = 95 :=
  round2q_eval_down 95 9500 95 (by norm_num) (by norm_num) (by norm_num) (by norm_num)

theorem round2q_100 : round2q 100 = 100 :=
  round2q_eval_down 100 10000 100 (by norm_num) (by norm_num) (by norm_num) (by norm_num)

theorem round2q_105 : round2q 105 = 105 :=
  round2q_eval_down 105 10500 105 (by norm_num) (by norm_num) (by norm_num) (by norm_num)

/-- Shared concrete historical dataset: every target county has the
single history record with wholesale price 100. -/
def agStd : List Record :=
  [⟨"Kiambu", 0, 100⟩, ⟨"Kirinyaga", 0, 100⟩, ⟨"Mombasa", 0, 100⟩,
   ⟨"Nairobi", 0, 100⟩, ⟨"Uasin-Gishu", 0, 100⟩]

/-- Shared concrete recent-price table: every target county at 100. -/
def recStd : List (String × ℚ) :=
  [("Kiambu", 100), ("Kirinyaga", 100), ("Mombasa", 100),
   ("Nairobi", 100), ("Uasin-Gishu", 100)]

/-- Expected output of the forecast on the shared concrete dataset. -/
def predsStd : List Prediction :=
  [⟨"Kiambu", some 100⟩, ⟨"Kirinyaga", some 98⟩, ⟨"Mombasa", some 95⟩,
   ⟨"Nairobi", some 100⟩, ⟨"Uasin-Gishu", some 105⟩]

theorem forecast_eval_std : forecast_prices agStd recStd 10 = Except.ok predsStd := by
  have hKia : forecastOne SEASONAL_ADJUSTMENTS COUNTY_FACTORS agStd recStd 10 "Kiambu" =
      Except.ok ⟨"Kiambu", some 100⟩ :=
    forecastOne_eval _ _ _ _ _ _ 100 1 1 90 110 100 100 100
      (by decide) (by decide)
      (lowerBound_eval _ _ 100 90 (by decide) (by norm_num))
      (upperBound_eval _ _ 100 110 (by decide) (by norm_num))
      (by decide) (by norm_num)
      (by rw [min_eq_right (by norm_num : (100:ℚ) ≤ 110),
              max_eq_right (by norm_num : (90:ℚ) ≤ 100)])
      round2q_100
  have hKir : forecastOne SEASONAL_ADJUSTMENTS COUNTY_FACTORS agStd recStd 10 "Kirinyaga" =
      Except.ok ⟨"Kirinyaga", some 98⟩ :=
    forecastOne_eval _ _ _ _ _ _ 100 (49/50) 1 90 110 98 98 98
      (by decide) (by rfl)
      (lowerBound_eval _ _ 100 90 (by decide) (by norm_num))
      (upperBound_eval _ _ 100 110 (by decide) (by norm_num))
      (by decide) (by norm_num)
      (by rw [min_eq_right (by norm_num : (98:ℚ) ≤ 110),
              max_eq_right (by norm_num : (90:ℚ) ≤ 98)])
      round2q_98
  have hMom : forecastOne SEASONAL_ADJUSTMENTS COUNTY_FACTORS agStd recStd 10 "Mombasa" =
      Except.ok ⟨"Mombasa", some 95⟩ :=
    forecastOne_eval _ _ _ _ _ _ 100 (19/20) 1 90 110 95 95 95
      (by decide) (by rfl)
      (lowerBound_eval _ _ 100 90 (by decide) (by norm_num))
      (upperBound_eval _ _ 100 110 (by decide) (by norm_num))
      (by decide) (by norm_num)
      (by rw [min_eq_right (by norm_num : (95:ℚ) ≤ 110),
              max_eq_right (by norm_num : (90:ℚ) ≤ 95)])
      round2q_95
  have hNai : forecastOne SEASONAL_ADJUSTMENTS COUNTY_FACTORS agStd recStd 10 "Nairobi" =
      Except.ok ⟨"Nairobi", some 100⟩ :=
    forecastOne_eval _ _ _ _ _ _ 100 1 1 90 110 100 100 100
      (by decide) (by decide)
      (lowerBound_eval _ _ 100 90 (by decide) (by norm_num))
      (upperBound_eval _ _ 100 110 (by decide) (by norm_num))
      (by decide) (by norm_num)
      (by rw [min_eq_right (by norm_num : (100:ℚ) ≤ 110),
              max_eq_right (by norm_num : (90:ℚ) ≤ 100)])
      round2q_100
  have hUas : forecastOne SEASONAL_ADJUSTMENTS COUNTY_FACTORS agStd recStd 10 "Uasin-Gishu" =
      Except.ok ⟨"Uasin-Gishu", some 105⟩ :=
    forecastOne_eval _ _ _ _ _ _ 100 (21/20) 1 90 110 105 105 105
      (by decide) (by rfl)
      (lowerBound_eval _ _ 100 90 (by decide) (by norm_num))
      (upperBound_eval _ _ 100 110 (by decide) (by norm_num))
      (by decide) (by norm_num)
      (by rw [min_eq_right (by norm_num : (105:ℚ) ≤ 110),
              max_eq_right (by norm_num : (90:ℚ) ≤ 105)])
      round2q_105
  show forecastList SEASONAL_ADJUSTMENTS COUNTY_FACTORS TARGET_COUNTIES agStd recStd 10 =
    Except.ok predsStd
  rw [show TARGET_COUNTIES =
    ["Kiambu", "Kirinyaga", "Mombasa", "Nairobi", "Uasin-Gishu"] from rfl]
  exact forecastList_cons_ok hKia (forecastList_cons_ok hKir (forecastList_cons_ok hMom
    (forecastList_cons_ok hNai (forecastList_cons_ok hUas (forecastList_nil _ _ _ _ _)))))

/-! ### Claim theorems -/

/-- C10: for every region whose history is non-empty and contains only
non-negative wholesale prices, the derived bounds satisfy
`lower_bound(r) <= upper_bound(r)`, so the clamp step
`max(lower, min(upper, raw))` is well defined and never inverts the
interval: it always produces a value inside `[lower, upper]`. -/
theorem C10_bounds_ordered (ag : List Record) (c : String)
    (hne : histFor ag c ≠ [])
    (hnn : ∀ r ∈ histFor ag c, 0 ≤ r.WholeSale) :
    ∃ l u : ℚ, lowerBound ag c = some l ∧ upperBound ag c = some u ∧ l ≤ u ∧
      ∀ x : ℚ, ∃ y : ℚ,
        pymax (lowerBound ag c) (pymin (upperBound ag c) (some x)) = some y ∧
        l ≤ y ∧ y ≤ u := by
  obtain ⟨l, u, hl, hu, _, hlu⟩ := bounds_some_le ag c hne hnn
  refine ⟨l, u, hl, hu, hlu, fun x => ?_⟩
  rw [hu, pymin_some, hl, pymax_some]
  exact ⟨max l (min u x), rfl, (clamp_mem hlu x).1, (clamp_mem hlu x).2⟩

/-- Witness for C10 at a concrete one-record history. -/
theorem C10_witness :
    (histFor [⟨"Kiambu", 0, 100⟩] "Kiambu" ≠ []) ∧
    (∀ r ∈ histFor [⟨"Kiambu", 0, 100⟩] "Kiambu", 0 ≤ r.WholeSale) ∧
    (∃ l u : ℚ, lowerBound [⟨"Kiambu", 0, 100⟩] "Kiambu" = some l ∧
      upperBound [⟨"Kiambu", 0, 100⟩] "Kiambu" = some u ∧ l ≤ u ∧
      ∀ x : ℚ, ∃ y : ℚ,
        pymax (lowerBound [⟨"Kiambu", 0, 100⟩] "Kiambu")
          (pymin (upperBound [⟨"Kiambu", 0, 100⟩] "Kiambu") (some x)) = some y ∧
        l ≤ y ∧ y ≤ u) :=
  ⟨by decide, by decide,
    C10_bounds_ordered [⟨"Kiambu", 0, 100⟩] "Kiambu" (by decide) (by decide)⟩

/-- C9: the forecast engine is deterministic: two invocations of the
batch forecast on identical historical series, recent-price table and
period produce identical output (same regions, same predicted prices,
same order); the embedding is a pure function of its inputs, mirroring
the absence of mutation and I/O in the source loop. -/
theorem C9_deterministic (ag₁ ag₂ : List Record)
    (rec₁ rec₂ : List (String × ℚ)) (w₁ w₂ : ℤ)
    (hag : ag₁ = ag₂) (hrec : rec₁ = rec₂) (hw : w₁ = w₂) :
    forecast_prices ag₁ rec₁ w₁ = forecast_prices ag₂ rec₂ w₂ := by
  rw [hag, hrec, hw]

/-- Witness for C9 at a concrete input. -/
theorem C9_witness :
    forecast_prices [⟨"Kiambu", 0, 100⟩] [("Kiambu", 100)] 50 =
      forecast_prices [⟨"Kiambu", 0, 100⟩] [("Kiambu", 100)] 50 :=
  C9_deterministic _ _ _ _ _ _ rfl rfl rfl

/-- C8: for every period, the batch forecast produces exactly one result
row per target region, assembled in the canonical `TARGET_COUNTIES`
order (not the input iteration order) on every successful run. -/
theorem C8_rows_in_canonical_order (ag : List Record)
    (rec : List (String × ℚ)) (w : ℤ) (rows : List Prediction)
    (hok : forecast_prices ag rec w = Except.ok rows) :
    rows.map (fun p => p.County) = TARGET_COUNTIES := by
  simp only [forecast_prices, forecastPricesWith] at hok
  exact forecastList_ok_counties TARGET_COUNTIES rows hok

/-- C7: for every period absent from the seasonal table, the batch
forecast equals the batch forecast computed with the seasonal factor
fixed at 1.0 (modelled by the empty seasonal table, on which every
lookup returns the neutral default 1.0). -/
theorem C7_seasonal_default_neutral (ag : List Record)
    (rec : List (String × ℚ)) (w : ℤ)
    (hw : SEASONAL_ADJUSTMENTS.lookup w = none) :
    forecast_prices ag rec w = forecastPricesWith [] COUNTY_FACTORS ag rec w := by
  simp only [forecast_prices, forecastPricesWith]
  exact forecastList_seasonal_none hw COUNTY_FACTORS ag rec TARGET_COUNTIES

/-- Witness for C7 at week 10, which is absent from the seasonal table. -/
theorem C7_witness :
    SEASONAL_ADJUSTMENTS.lookup (10 : ℤ) = none ∧
    forecast_prices agStd recStd 10 = forecastPricesWith [] COUNTY_FACTORS agStd recStd 10 :=
  ⟨by decide, C7_seasonal_default_neutral agStd recStd 10 (by decide)⟩

theorem forecastOne_eval_plain (ag : List Record) (rec : List (String × ℚ))
    (c : String) (φ v : ℚ)
    (hb : rec.lookup c = some 100)
    (hf : COUNTY_FACTORS.lookup c = some φ)
    (hm : seriesMin ((histFor ag c).map (fun r => r.WholeSale)) = some 100)
    (hM : seriesMax ((histFor ag c).map (fun r => r.WholeSale)) = some 100)
    (hx : 100 * 1 * φ = v)
    (h90 : 90 ≤ v) (h110 : v ≤ 110)
    (hv : round2q v = v) :
    forecastOne SEASONAL_ADJUSTMENTS COUNTY_FACTORS ag rec 10 c = Except.ok ⟨c, some v⟩ :=
  forecastOne_eval _ _ _ _ _ _ 100 φ 1 90 110 v v v hb hf
    (lowerBound_eval _ _ 100 90 hm (by norm_num))
    (upperBound_eval _ _ 100 110 hM (by norm_num))
    (by decide) hx
    (by rw [min_eq_right h110, max_eq_right h90]) hv

/-- Witness for C8: the forecast on the shared concrete dataset succeeds
and its rows follow the canonical county order. -/
theorem C8_witness :
    forecast_prices agStd recStd 10 = Except.ok predsStd ∧
    predsStd.map (fun p => p.County) = TARGET_COUNTIES :=
  ⟨forecast_eval_std,
    C8_rows_in_canonical_order agStd recStd 10 predsStd forecast_eval_std⟩

/-- C6: if every target region has a recent price but some target region
lacks an entry in the region-multiplier table, the batch forecast raises
a `KeyError` on `COUNTY_FACTORS` (the spec error `UnconfiguredRegion`)
and emits no partial output: no list of rows is returned at all. -/
theorem C6_unconfigured_region_aborts
    (factors : List (String × ℚ)) (ag : List Record)
    (rec : List (String × ℚ)) (w : ℤ)
    (hrec : ∀ c ∈ TARGET_COUNTIES, (rec.lookup c).isSome = true)
    (hmiss : ∃ c ∈ TARGET_COUNTIES, factors.lookup c = none) :
    ∃ c ∈ TARGET_COUNTIES,
      forecastPricesWith SEASONAL_ADJUSTMENTS factors ag rec w =
        Except.error (PyError.keyError "COUNTY_FACTORS" c) ∧
      ∀ rows : List Prediction,
        forecastPricesWith SEASONAL_ADJUSTMENTS factors ag rec w ≠
          Except.ok rows := by
  obtain ⟨c, hc, herr⟩ := forecastList_factors_missing TARGET_COUNTIES hrec hmiss
  refine ⟨c, hc, ?_, fun rows hrows => ?_⟩
  · simp only [forecastPricesWith]
    exact herr
  · simp only [forecastPricesWith] at hrows
    rw [herr] at hrows
    exact Except.noConfusion hrows

/-- Region-multiplier table with the Mombasa entry removed, for the C6
witness. -/
def factorsC6 : List (String × ℚ) :=
  [("Kiambu", 1), ("Kirinyaga", 49/50), ("Nairobi", 1), ("Uasin-Gishu", 21/20)]

/-- Witness for C6 at a concrete configuration lacking Mombasa. -/
theorem C6_witness :
    (∀ c ∈ TARGET_COUNTIES, (recStd.lookup c).isSome = true) ∧
    ∃ c ∈ TARGET_COUNTIES,
      forecastPricesWith SEASONAL_ADJUSTMENTS factorsC6 agStd recStd 10 =
        Except.error (PyError.keyError "COUNTY_FACTORS" c) ∧
      ∀ rows : List Prediction,
        forecastPricesWith SEASONAL_ADJUSTMENTS factorsC6 agStd recStd 10 ≠
          Except.ok rows :=
  ⟨by decide, C6_unconfigured_region_aborts factorsC6 agStd recStd 10 (by decide)
    ⟨"Mombasa", by decide, by rfl⟩⟩

/-- C1 (amended): for every target region with a recent price, non-empty
history of non-negative prices and a configured region factor, the
clamped price before the final rounding lies within
`[lower_bound, upper_bound]` inclusive; the returned `predicted_price`
is that value rounded to 2 decimals and therefore lies within
`[lower_bound - 0.005, upper_bound + 0.005]`.  The original claim, that
the returned price itself lies within `[lower_bound, upper_bound]`, is
refuted by `C1_counterexample`: rounding can push it past a bound. -/
theorem C1_amended_rounded_bounds (ag : List Record)
    (rec : List (String × ℚ)) (w : ℤ) (rows : List Prediction) (c : String)
    (hok : forecast_prices ag rec w = Except.ok rows)
    (hc : c ∈ TARGET_COUNTIES)
    (hne : histFor ag c ≠ [])
    (hnn : ∀ r ∈ histFor ag c, 0 ≤ r.WholeSale) :
    ∃ p ∈ rows, p.County = c ∧ ∃ l u y : ℚ,
      lowerBound ag c = some l ∧ upperBound ag c = some u ∧
      l ≤ y ∧ y ≤ u ∧
      p.Predicted_Wholesale_Price_KES = some (round2q y) ∧
      l - 1/200 ≤ round2q y ∧ round2q y ≤ u + 1/200 := by
  simp only [forecast_prices, forecastPricesWith] at hok
  obtain ⟨p, hp, hone⟩ := forecastList_ok_mem TARGET_COUNTIES rows hok c hc
  obtain ⟨b, φ, hb, hf, hpeq⟩ := forecastOne_ok_elim hone
  obtain ⟨l, u, hl, hu, hl0, hlu⟩ := bounds_some_le ag c hne hnn
  have hprice : p.Predicted_Wholesale_Price_KES =
      some (round2q (max l (min u (b * ((SEASONAL_ADJUSTMENTS.lookup w).getD 1) * φ)))) := by
    rw [hpeq, hl, hu, pymin_some, pymax_some]
    rfl
  have hcl := clamp_mem hlu (b * ((SEASONAL_ADJUSTMENTS.lookup w).getD 1) * φ)
  refine ⟨p, hp, forecastOne_ok_county hone, l, u,
    max l (min u (b * ((SEASONAL_ADJUSTMENTS.lookup w).getD 1) * φ)),
    hl, hu, hcl.1, hcl.2, hprice, ?_, ?_⟩
  · have h1 := le_round2q (max l (min u (b * ((SEASONAL_ADJUSTMENTS.lookup w).getD 1) * φ)))
    linarith [hcl.1]
  · have h1 := round2q_le (max l (min u (b * ((SEASONAL_ADJUSTMENTS.lookup w).getD 1) * φ)))
    linarith [hcl.2]

/-- Witness for C1 on the shared concrete dataset, region Kiambu. -/
theorem C1_witness :
    forecast_prices agStd recStd 10 = Except.ok predsStd ∧
    "Kiambu" ∈ TARGET_COUNTIES ∧
    histFor agStd "Kiambu" ≠ [] ∧
    (∀ r ∈ histFor agStd "Kiambu", 0 ≤ r.WholeSale) ∧
    (∃ p ∈ predsStd, p.County = "Kiambu" ∧ ∃ l u y : ℚ,
      lowerBound agStd "Kiambu" = some l ∧ upperBound agStd "Kiambu" = some u ∧
      l ≤ y ∧ y ≤ u ∧
      p.Predicted_Wholesale_Price_KES = some (round2q y) ∧
      l - 1/200 ≤ round2q y ∧ round2q y ≤ u + 1/200) :=
  ⟨forecast_eval_std, by decide, by decide, by decide,
    C1_amended_rounded_bounds agStd recStd 10 predsStd "Kiambu"
      forecast_eval_std (by decide) (by decide) (by decide)⟩

/-- Historical dataset refuting C1 as stated: the Kiambu history is the
single price 9.06, so the Kiambu bounds are [8.154, 9.966]. -/
def agC1 : List Record :=
  [⟨"Kiambu", 0, 453/50⟩, ⟨"Kirinyaga", 0, 100⟩, ⟨"Mombasa", 0, 100⟩,
   ⟨"Nairobi", 0, 100⟩, ⟨"Uasin-Gishu", 0, 100⟩]

/-- Counterexample to C1 as stated: with Kiambu history [9.06] and recent
price 100, the raw product 100 clamps to the upper bound 9.966, and the
final rounding returns 9.97, which exceeds the upper bound.  Every
hypothesis of the claim holds: recent price, non-empty history and a
configured factor are all present. -/
theorem C1_counterexample :
    forecast_prices agC1 recStd 10 = Except.ok
      [⟨"Kiambu", some (997/100)⟩, ⟨"Kirinyaga", some 98⟩,
       ⟨"Mombasa", some 95⟩, ⟨"Nairobi", some 100⟩,
       ⟨"Uasin-Gishu", some 105⟩] ∧
    upperBound agC1 "Kiambu" = some (4983/500) ∧
    histFor agC1 "Kiambu" ≠ [] ∧
    ¬ ((997 : ℚ)/100 ≤ 4983/500) := by
  have hKia : forecastOne SEASONAL_ADJUSTMENTS COUNTY_FACTORS agC1 recStd 10 "Kiambu" =
      Except.ok ⟨"Kiambu", some (997/100)⟩ :=
    forecastOne_eval _ _ _ _ _ _ 100 1 1 (4077/500) (4983/500) 100 (4983/500) (997/100)
      (by decide) (by decide)
      (lowerBound_eval _ _ (453/50) (4077/500) (by rfl) (by norm_num))
      (upperBound_eval _ _ (453/50) (4983/500) (by rfl) (by norm_num))
      (by decide) (by norm_num)
      (by rw [min_eq_left (by norm_num : (4983:ℚ)/500 ≤ 100),
              max_eq_right (by norm_num : (4077:ℚ)/500 ≤ 4983/500)])
      (round2q_eval_up (4983/500) 996 (997/100)
        (by norm_num) (by norm_num) (by norm_num) (by norm_num))
  have hKir := forecastOne_eval_plain agC1 recStd "Kirinyaga" (49/50) 98
    (by decide) (by rfl) (by decide) (by decide) (by norm_num)
    (by norm_num) (by norm_num) round2q_98
  have hMom := forecastOne_eval_plain agC1 recStd "Mombasa" (19/20) 95
    (by decide) (by rfl) (by decide) (by decide) (by norm_num)
    (by norm_num) (by norm_num) round2q_95
  have hNai := forecastOne_eval_plain agC1 recStd "Nairobi" 1 100
    (by decide) (by rfl) (by decide) (by decide) (by norm_num)
    (by norm_num) (by norm_num) round2q_100
  have hUas := forecastOne_eval_plain agC1 recStd "Uasin-Gishu" (21/20) 105
    (by decide) (by rfl) (by decide) (by decide) (by norm_num)
    (by norm_num) (by norm_num) round2q_105
  refine ⟨?_, ?_, by decide, by norm_num⟩
  · show forecastList SEASONAL_ADJUSTMENTS COUNTY_FACTORS TARGET_COUNTIES agC1 recStd 10 = _
    rw [show TARGET_COUNTIES =
      ["Kiambu", "Kirinyaga", "Mombasa", "Nairobi", "Uasin-Gishu"] from rfl]
    exact forecastList_cons_ok hKia (forecastList_cons_ok hKir (forecastList_cons_ok hMom
      (forecastList_cons_ok hNai (forecastList_cons_ok hUas (forecastList_nil _ _ _ _ _)))))
  · exact upperBound_eval _ _ (453/50) (4983/500) (by rfl) (by norm_num)

/-- C2 (amended): when the raw product `base * seasonal * regionFactor`
exceeds the upper bound, the returned `predicted_price` equals the upper
bound rounded to 2 decimals (`round2q upper`), and symmetrically for the
lower bound.  The original claim, that the returned price equals the
bound exactly, is refuted by `C2_counterexample`: the final rounding can
alter a bound that does not have 2-decimal form. -/
theorem C2_amended_clamp_rounded (ag : List Record)
    (rec : List (String × ℚ)) (w : ℤ) (rows : List Prediction) (c : String)
    (b φ l u : ℚ)
    (hok : forecast_prices ag rec w = Except.ok rows)
    (hc : c ∈ TARGET_COUNTIES)
    (hb : rec.lookup c = some b)
    (hf : COUNTY_FACTORS.lookup c = some φ)
    (hl : lowerBound ag c = some l)
    (hu : upperBound ag c = some u)
    (hlu : l ≤ u) :
    ∃ p ∈ rows, p.County = c ∧
      (u < b * ((SEASONAL_ADJUSTMENTS.lookup w).getD 1) * φ →
        p.Predicted_Wholesale_Price_KES = some (round2q u)) ∧
      (b * ((SEASONAL_ADJUSTMENTS.lookup w).getD 1) * φ < l →
        p.Predicted_Wholesale_Price_KES = some (round2q l)) := by
  simp only [forecast_prices, forecastPricesWith] at hok
  obtain ⟨p, hp, hone⟩ := forecastList_ok_mem TARGET_COUNTIES rows hok c hc
  obtain ⟨b2, φ2, hb2, hf2, hpeq⟩ := forecastOne_ok_elim hone
  rw [hb] at hb2
  rw [hf] at hf2
  injection hb2 with hb2
  injection hf2 with hf2
  rw [← hb2, ← hf2] at hpeq
  refine ⟨p, hp, forecastOne_ok_county hone, fun hgt => ?_, fun hlt => ?_⟩
  · rw [hpeq, hl, hu, pymin_some, pymax_some,
      min_eq_left (le_of_lt hgt), max_eq_right hlu]
    rfl
  · rw [hpeq, hl, hu, pymin_some, pymax_some,
      min_eq_right (le_of_lt (lt_of_lt_of_le hlt hlu)), max_eq_left (le_of_lt hlt)]
    rfl

/-- Witness for C2 on the shared concrete dataset, region Kiambu. -/
theorem C2_witness :
    (90 : ℚ) ≤ 110 ∧
    (∃ p ∈ predsStd, p.County = "Kiambu" ∧
      (110 < 100 * ((SEASONAL_ADJUSTMENTS.lookup (10 : ℤ)).getD 1) * 1 →
        p.Predicted_Wholesale_Price_KES = some (round2q 110)) ∧
      (100 * ((SEASONAL_ADJUSTMENTS.lookup (10 : ℤ)).getD 1) * 1 < 90 →
        p.Predicted_Wholesale_Price_KES = some (round2q 90))) :=
  ⟨by norm_num,
    C2_amended_clamp_rounded agStd recStd 10 predsStd "Kiambu" 100 1 90 110
      forecast_eval_std (by decide) (by decide) (by decide)
      (lowerBound_eval agStd "Kiambu" 100 90 (by decide) (by norm_num))
      (upperBound_eval agStd "Kiambu" 100 110 (by decide) (by norm_num))
      (by norm_num)⟩

/-- Historical dataset refuting C2 as stated: the Kiambu history is the
single price 4.44, so the Kiambu upper bound is 4.884, which has three
decimal digits. -/
def agC2 : List Record :=
  [⟨"Kiambu", 0, 111/25⟩, ⟨"Kirinyaga", 0, 100⟩, ⟨"Mombasa", 0, 100⟩,
   ⟨"Nairobi", 0, 100⟩, ⟨"Uasin-Gishu", 0, 100⟩]

/-- Counterexample to C2 as stated: for Kiambu the raw product 100
exceeds the upper bound 4.884, yet the returned price is 4.88, the
rounded bound, not the bound itself. -/
theorem C2_counterexample :
    forecast_prices agC2 recStd 10 = Except.ok
      [⟨"Kiambu", some (122/25)⟩, ⟨"Kirinyaga", some 98⟩,
       ⟨"Mombasa", some 95⟩, ⟨"Nairobi", some 100⟩,
       ⟨"Uasin-Gishu", some 105⟩] ∧
    upperBound agC2 "Kiambu" = some (1221/250) ∧
    recStd.lookup "Kiambu" = some 100 ∧
    COUNTY_FACTORS.lookup "Kiambu" = some 1 ∧
    ((1221 : ℚ)/250) < 100 * ((SEASONAL_ADJUSTMENTS.lookup (10 : ℤ)).getD 1) * 1 ∧
    ((122 : ℚ)/25) ≠ 1221/250 := by
  have hKia : forecastOne SEASONAL_ADJUSTMENTS COUNTY_FACTORS agC2 recStd 10 "Kiambu" =
      Except.ok ⟨"Kiambu", some (122/25)⟩ :=
    forecastOne_eval _ _ _ _ _ _ 100 1 1 (999/250) (1221/250) 100 (1221/250) (122/25)
      (by decide) (by decide)
      (lowerBound_eval _ _ (111/25) (999/250) (by rfl) (by norm_num))
      (upperBound_eval _ _ (111/25) (1221/250) (by rfl) (by norm_num))
      (by decide) (by norm_num)
      (by rw [min_eq_left (by norm_num : (1221:ℚ)/250 ≤ 100),
              max_eq_right (by norm_num : (999:ℚ)/250 ≤ 1221/250)])
      (round2q_eval_down (1221/250) 488 (122/25)
        (by norm_num) (by norm_num) (by norm_num) (by norm_num))
  have hKir := forecastOne_eval_plain agC2 recStd "Kirinyaga" (49/50) 98
    (by decide) (by rfl) (by decide) (by decide) (by norm_num)
    (by norm_num) (by norm_num) round2q_98
  have hMom := forecastOne_eval_plain agC2 recStd "Mombasa" (19/20) 95
    (by decide) (by rfl) (by decide) (by decide) (by norm_num)
    (by norm_num) (by norm_num) round2q_95
  have hNai := forecastOne_eval_plain agC2 recStd "Nairobi" 1 100
    (by decide) (by rfl) (by decide) (by decide) (by norm_num)
    (by norm_num) (by norm_num) round2q_100
  have hUas := forecastOne_eval_plain agC2 recStd "Uasin-Gishu" (21/20) 105
    (by decide) (by rfl) (by decide) (by decide) (by norm_num)
    (by norm_num) (by norm_num) round2q_105
  have hseason : (SEASONAL_ADJUSTMENTS.lookup (10 : ℤ)).getD 1 = 1 := by decide
  refine ⟨?_, ?_, by decide, by decide, ?_, by norm_num⟩
  · show forecastList SEASONAL_ADJUSTMENTS COUNTY_FACTORS TARGET_COUNTIES agC2 recStd 10 = _
    rw [show TARGET_COUNTIES =
      ["Kiambu", "Kirinyaga", "Mombasa", "Nairobi", "Uasin-Gishu"] from rfl]
    exact forecastList_cons_ok hKia (forecastList_cons_ok hKir (forecastList_cons_ok hMom
      (forecastList_cons_ok hNai (forecastList_cons_ok hUas (forecastList_nil _ _ _ _ _)))))
  · exact upperBound_eval _ _ (111/25) (1221/250) (by rfl) (by norm_num)
  · rw [hseason]
    norm_num

/-- C3 (amended): the final step of the forecast engine rounds the
clamped price to 2 decimal digits using round half to even, the
behaviour of the Python builtin `round`: every real predicted price in
the output is an integer multiple of 1/100, and half-way values round to
the even multiple.  The original half-away-from-zero claim is refuted by
`C3_counterexample`. -/
theorem C3_amended_two_decimals_half_even :
    (∀ (ag : List Record) (rec : List (String × ℚ)) (w : ℤ)
      (rows : List Prediction),
      forecast_prices ag rec w = Except.ok rows →
      ∀ p ∈ rows, ∀ q : ℚ, p.Predicted_Wholesale_Price_KES = some q →
        ∃ n : ℤ, q = (n : ℚ) / 100) ∧
    (∀ x : ℚ, x - ⌊x⌋ = 1/2 → roundHalfEven x % 2 = 0) := by
  constructor
  · intro ag rec w rows hok p hp q hq
    simp only [forecast_prices, forecastPricesWith] at hok
    obtain ⟨c, _, hone⟩ := forecastList_ok_mem_rev TARGET_COUNTIES rows hok p hp
    obtain ⟨b, φ, _, _, hpeq⟩ := forecastOne_ok_elim hone
    rw [hpeq] at hq
    revert hq
    generalize pymax (lowerBound ag c) (pymin (upperBound ag c)
      (some (b * ((SEASONAL_ADJUSTMENTS.lookup w).getD 1) * φ))) = V
    intro hq
    cases V with
    | none => exact absurd hq (by simp [pround2])
    | some y =>
      have hqy : round2q y = q := by simpa [pround2] using hq
      obtain ⟨n, hn⟩ := round2q_den y
      exact ⟨n, by rw [← hqy, hn]⟩
  · intro x hx
    exact roundHalfEven_tie_even x hx

/-- Witness for C3: a concrete returned price 98 is a multiple of 1/100,
and the half-way value 1/2 rounds to the even integer 0. -/
theorem C3_witness :
    (∃ n : ℤ, (98 : ℚ) = (n : ℚ) / 100) ∧ roundHalfEven (1/2) % 2 = 0 :=
  ⟨C3_amended_two_decimals_half_even.1 agStd recStd 10 predsStd
      forecast_eval_std ⟨"Kirinyaga", some 98⟩ (by decide) 98 rfl,
    C3_amended_two_decimals_half_even.2 (1/2)
      (by rw [floor_eval (1/2 : ℚ) 0 (by norm_num) (by norm_num)]; norm_num)⟩

/-- Historical dataset refuting the half-away-from-zero part of C3: the
Kiambu history [4, 5] gives bounds [3.6, 5.5]. -/
def agC3 : List Record :=
  [⟨"Kiambu", 0, 4⟩, ⟨"Kiambu", 1, 5⟩, ⟨"Kirinyaga", 0, 100⟩,
   ⟨"Mombasa", 0, 100⟩, ⟨"Nairobi", 0, 100⟩, ⟨"Uasin-Gishu", 0, 100⟩]

/-- Recent prices refuting C3: the Kiambu recent price is 4.125, an exact
half-way value at 2 decimals. -/
def recC3 : List (String × ℚ) :=
  [("Kiambu", 33/8), ("Kirinyaga", 100), ("Mombasa", 100),
   ("Nairobi", 100), ("Uasin-Gishu", 100)]

/-- Counterexample to C3 as stated: the clamped Kiambu price is exactly
4.125; the code returns 4.12 (round half to even), while rounding half
away from zero would return 4.13. -/
theorem C3_counterexample :
    forecast_prices agC3 recC3 10 = Except.ok
      [⟨"Kiambu", some (103/25)⟩, ⟨"Kirinyaga", some 98⟩,
       ⟨"Mombasa", some 95⟩, ⟨"Nairobi", some 100⟩,
       ⟨"Uasin-Gishu", some 105⟩] ∧
    round2AwaySpec (33/8) = 413/100 ∧
    ((103 : ℚ)/25) ≠ 413/100 := by
  have hKia : forecastOne SEASONAL_ADJUSTMENTS COUNTY_FACTORS agC3 recC3 10 "Kiambu" =
      Except.ok ⟨"Kiambu", some (103/25)⟩ :=
    forecastOne_eval _ _ _ _ _ _ (33/8) 1 1 (18/5) (11/2) (33/8) (33/8) (103/25)
      (by rfl) (by decide)
      (lowerBound_eval _ _ 4 (18/5) (by decide) (by norm_num))
      (upperBound_eval _ _ 5 (11/2) (by decide) (by norm_num))
      (by decide) (by norm_num)
      (by rw [min_eq_right (by norm_num : (33:ℚ)/8 ≤ 11/2),
              max_eq_right (by norm_num : (18:ℚ)/5 ≤ 33/8)])
      (round2q_eval_half_even (33/8) 412 (103/25)
        (by norm_num) (by norm_num) (by norm_num) (by norm_num) (by norm_num))
  have hKir := forecastOne_eval_plain agC3 recC3 "Kirinyaga" (49/50) 98
    (by decide) (by rfl) (by decide) (by decide) (by norm_num)
    (by norm_num) (by norm_num) round2q_98
  have hMom := forecastOne_eval_plain agC3 recC3 "Mombasa" (19/20) 95
    (by decide) (by rfl) (by decide) (by decide) (by norm_num)
    (by norm_num) (by norm_num) round2q_95
  have hNai := forecastOne_eval_plain agC3 recC3 "Nairobi" 1 100
    (by decide) (by rfl) (by decide) (by decide) (by norm_num)
    (by norm_num) (by norm_num) round2q_100
  have hUas := forecastOne_eval_plain agC3 recC3 "Uasin-Gishu" (21/20) 105
    (by decide) (by rfl) (by decide) (by decide) (by norm_num)
    (by norm_num) (by norm_num) round2q_105
  refine ⟨?_, ?_, by norm_num⟩
  · show forecastList SEASONAL_ADJUSTMENTS COUNTY_FACTORS TARGET_COUNTIES agC3 recC3 10 = _
    rw [show TARGET_COUNTIES =
      ["Kiambu", "Kirinyaga", "Mombasa", "Nairobi", "Uasin-Gishu"] from rfl]
    exact forecastList_cons_ok hKia (forecastList_cons_ok hKir (forecastList_cons_ok hMom
      (forecastList_cons_ok hNai (forecastList_cons_ok hUas (forecastList_nil _ _ _ _ _)))))
  · rw [round2AwaySpec, if_pos (by norm_num : (0:ℚ) ≤ 33/8)]
    rw [show ((100 : ℚ) * (33/8) + 1/2) = ((413 : ℤ) : ℚ) by push_cast; norm_num]
    rw [Int.floor_intCast]
    norm_num

/-- Historical dataset for C4: Kiambu is entirely absent from the
historical series, while every county has a recent price. -/
def agC4 : List Record :=
  [⟨"Kirinyaga", 0, 100⟩, ⟨"Mombasa", 0, 100⟩, ⟨"Nairobi", 0, 100⟩,
   ⟨"Uasin-Gishu", 0, 100⟩]

/-- C4: a target region absent from the historical series should signal
`InsufficientHistory`, but the code raises nothing: the pandas min/max
of the empty Kiambu selection are NaN, NaN propagates through clamping
and rounding, and the batch returns successfully with a NaN predicted
price for Kiambu.  This theorem evaluates the code at the failing
input. -/
theorem C4_missing_history_yields_nan :
    histFor agC4 "Kiambu" = [] ∧
    forecast_prices agC4 recStd 10 = Except.ok
      [⟨"Kiambu", none⟩, ⟨"Kirinyaga", some 98⟩, ⟨"Mombasa", some 95⟩,
       ⟨"Nairobi", some 100⟩, ⟨"Uasin-Gishu", some 105⟩] := by
  have hKia : forecastOne SEASONAL_ADJUSTMENTS COUNTY_FACTORS agC4 recStd 10 "Kiambu" =
      Except.ok ⟨"Kiambu", none⟩ :=
    forecastOne_eval_nan _ _ _ _ _ _ 100 1 (by decide) (by decide) (by decide)
  have hKir := forecastOne_eval_plain agC4 recStd "Kirinyaga" (49/50) 98
    (by decide) (by rfl) (by decide) (by decide) (by norm_num)
    (by norm_num) (by norm_num) round2q_98
  have hMom := forecastOne_eval_plain agC4 recStd "Mombasa" (19/20) 95
    (by decide) (by rfl) (by decide) (by decide) (by norm_num)
    (by norm_num) (by norm_num) round2q_95
  have hNai := forecastOne_eval_plain agC4 recStd "Nairobi" 1 100
    (by decide) (by rfl) (by decide) (by decide) (by norm_num)
    (by norm_num) (by norm_num) round2q_100
  have hUas := forecastOne_eval_plain agC4 recStd "Uasin-Gishu" (21/20) 105
    (by decide) (by rfl) (by decide) (by decide) (by norm_num)
    (by norm_num) (by norm_num) round2q_105
  refine ⟨by decide, ?_⟩
  show forecastList SEASONAL_ADJUSTMENTS COUNTY_FACTORS TARGET_COUNTIES agC4 recStd 10 = _
  rw [show TARGET_COUNTIES =
    ["Kiambu", "Kirinyaga", "Mombasa", "Nairobi", "Uasin-Gishu"] from rfl]
  exact forecastList_cons_ok hKia (forecastList_cons_ok hKir (forecastList_cons_ok hMom
    (forecastList_cons_ok hNai (forecastList_cons_ok hUas (forecastList_nil _ _ _ _ _)))))
